import Mathlib

/-!
Verification development for the daily-routine Telegram bot (`src/main.py`).

The Python program is shallowly embedded below:

* SQLite tables become Lean lists of records (`DbRow` for `daily_activities`,
  `WeeklyRow` for `weekly_progress`); the database connection state becomes an
  explicit `DB` value threaded through the operations.
* Clock reads (`datetime.now(TEHRAN_TZ)`) become explicit parameters: a day
  index `today : Nat` (days in the anchor timezone; `strftime('%Y-%m-%d')`
  strings compare in the same order as day indices) and a timestamp
  `Nat` for completion times.  Python's `weekday()` is `today % 7` for a
  fixed week anchor; nothing proved here depends on the anchor.
* Times of day inside the template stay `String`s in `"HH:MM"` form, exactly
  as in the source, and the generator sorts by the same lexicographic string
  order Python's `list.sort(key=lambda x: x["time"])` uses.
-/

/-- Lexicographic comparison of character lists by code point, matching
Python's `str` ordering used by `list.sort` on the `"HH:MM"` keys. -/
def charListLe : List Char → List Char → Bool
  | [], _ => true
  | _ :: _, [] => false
  | a :: as, b :: bs =>
    if a < b then true
    else if b < a then false
    else charListLe as bs

/-- Python string `<=` (lexicographic by code point). -/
def strLe (s t : String) : Bool := charListLe s.data t.data

/-- `ActivityType` enum of `main.py` (lines 39-46). -/
inductive ActivityType
  | SCHOOL
  | TAEKWONDO
  | CODING
  | HOME_WORKOUT
  | SKINCARE
  | LEISURE
  | STUDY
deriving DecidableEq

/-- The `.value` of each `ActivityType` member. -/
def ActivityType.value : ActivityType → String
  | .SCHOOL => "مدرسه"
  | .TAEKWONDO => "تکواندو"
  | .CODING => "برنامه‌نویسی"
  | .HOME_WORKOUT => "ورزش خانگی"
  | .SKINCARE => "روتین پوستی"
  | .LEISURE => "تفریح"
  | .STUDY => "مطالعه"

/-- `TaekwondoType` enum of `main.py` (lines 48-51): members `FITNESS`,
`FORM`, `SPARRING`. -/
inductive TaekwondoType
  | FITNESS
  | FORM
  | SPARRING
deriving DecidableEq

/-- The `.value` of each `TaekwondoType` member. -/
def TaekwondoType.value : TaekwondoType → String
  | .FITNESS => "بدنسازی"
  | .FORM => "فرم"
  | .SPARRING => "مبارزه"

/-- Python attribute lookup on the `TaekwondoType` enum class: `some` for the
three members that exist, `none` (AttributeError) for any other name. -/
def taekwondoTypeMember : String → Option TaekwondoType := fun s =>
  if s = "FITNESS" then some .FITNESS
  else if s = "FORM" then some .FORM
  else if s = "SPARRING" then some .SPARRING
  else none

/-- One taekwondo session entry of `SCHEDULE["taekwondo"]`. -/
structure TkSession where
  day : Nat
  start_time : String
  end_time : String
  type : TaekwondoType
deriving DecidableEq

/-- `SCHEDULE["school"]`. -/
structure SchoolCfg where
  days : List Nat
  start_time : String
  end_time : String
deriving DecidableEq

/-- The module-level `SCHEDULE` dict of `main.py` (lines 54-98), flattened
into a record. -/
structure ScheduleCfg where
  school : SchoolCfg
  taekwondo_fitness : TkSession
  taekwondo_form : TkSession
  taekwondo_sparring : TkSession
  coding_daily_min_hours : Nat
  coding_preferred_time : String
  home_workout_exercises : List String
  home_workout_daily : Bool
  skincare_morning : List String
  skincare_evening : List String
  skincare_night : List String
  leisure_daily_min_hours : Nat
deriving DecidableEq

/-- The value the `SCHEDULE` literal denotes.  NOTE: for the sparring entry
the source writes `TaekwondoType.SPARING`, an attribute that does not exist
on the enum (its member is `SPARRING`); evaluating the literal in Python
therefore raises `AttributeError` — see `SCHEDULE_opt` and the theorem for
that claim.  This record carries the only member the reference can denote. -/
def SCHEDULE : ScheduleCfg where
  school := { days := [0, 1, 2, 3, 4], start_time := "07:30", end_time := "14:00" }
  taekwondo_fitness := { day := 2, start_time := "15:30", end_time := "17:30", type := .FITNESS }
  taekwondo_form := { day := 4, start_time := "09:30", end_time := "11:30", type := .FORM }
  taekwondo_sparring := { day := 5, start_time := "15:45", end_time := "18:00", type := .SPARRING }
  coding_daily_min_hours := 1
  coding_preferred_time := "after_school"
  home_workout_exercises := ["حرکات کششی", "کاردیو", "پلانک", "اسکوات", "شنا"]
  home_workout_daily := true
  skincare_morning := ["شستشو", "مرطوب‌کننده", "ضدآفتاب"]
  skincare_evening := ["پاک‌کننده", "تونر", "سرم"]
  skincare_night := ["مرطوب‌کننده", "کرم چشم"]
  leisure_daily_min_hours := 1

/-- Evaluating the `SCHEDULE` dict literal as Python does at module import:
each `TaekwondoType.<NAME>` reference is an attribute lookup.  The source
(lines 65, 71, 77) references `FITNESS`, `FORM`, and `SPARING` — the last of
which is not a member, so evaluation fails (AttributeError). -/
def SCHEDULE_opt : Option ScheduleCfg := do
  let tfit ← taekwondoTypeMember "FITNESS"
  let tform ← taekwondoTypeMember "FORM"
  let tspar ← taekwondoTypeMember "SPARING"
  some { SCHEDULE with
           taekwondo_fitness := { SCHEDULE.taekwondo_fitness with type := tfit }
           taekwondo_form := { SCHEDULE.taekwondo_form with type := tform }
           taekwondo_sparring := { SCHEDULE.taekwondo_sparring with type := tspar } }

/-- The `(name, session)` pairs of `SCHEDULE["taekwondo"].items()` in dict
insertion order: fitness, form, sparring. -/
def taekwondoSessions : List (String × TkSession) :=
  [("fitness", SCHEDULE.taekwondo_fitness),
   ("form", SCHEDULE.taekwondo_form),
   ("sparring", SCHEDULE.taekwondo_sparring)]

/-- One activity dict built by `RoutinePlanner.generate_daily_schedule`
(keys `type`, `name`, `time`, `duration`, `description`). -/
structure PlanItem where
  atype : String
  name : String
  time : String
  duration : String
  descr : String
deriving DecidableEq

/-- The activity list `generate_daily_schedule` builds for weekday `d`
*before* sorting, in the source's construction (declaration) order
(`main.py` lines 303-393). -/
def plan (d : Fin 7) : List PlanItem :=
  (if d.val ∈ SCHEDULE.school.days then
    [{ atype := ActivityType.SCHOOL.value, name := "⏰ مدرسه",
       time := SCHEDULE.school.start_time, duration := "6.5 ساعت",
       descr := "ساعت 7:30 تا 14:00" }]
   else []) ++
  (taekwondoSessions.filterMap fun p =>
    if p.2.day = d.val then
      some { atype := ActivityType.TAEKWONDO.value,
             name := "🥋 تکواندو - " ++ p.2.type.value,
             time := p.2.start_time, duration := "2 ساعت",
             descr := "ساعت " ++ p.2.start_time ++ " تا " ++ p.2.end_time }
    else none) ++
  [{ atype := ActivityType.CODING.value, name := "💻 برنامه‌نویسی",
     time := if d.val ∈ SCHEDULE.school.days then "15:00" else "10:00",
     duration := "1+ ساعت", descr := "تمرین روزانه برنامه‌نویسی" }] ++
  (if SCHEDULE.home_workout_daily then
    [{ atype := ActivityType.HOME_WORKOUT.value, name := "🏋️ ورزش خانگی",
       time := if d.val ∈ [2, 4, 5] then "18:00" else "16:00",
       duration := "45 دقیقه",
       descr := "تمرینات: " ++ String.intercalate "، " SCHEDULE.home_workout_exercises }]
   else []) ++
  [{ atype := ActivityType.SKINCARE.value, name := "🧴 روتین پوستی صبح",
     time := "07:00", duration := "10 دقیقه",
     descr := "مراحل: " ++ String.intercalate "، " SCHEDULE.skincare_morning },
   { atype := ActivityType.SKINCARE.value, name := "🧴 روتین پوستی عصر",
     time := "18:30", duration := "10 دقیقه",
     descr := "مراحل: " ++ String.intercalate "، " SCHEDULE.skincare_evening },
   { atype := ActivityType.SKINCARE.value, name := "🧴 روتین پوستی شب",
     time := "22:00", duration := "10 دقیقه",
     descr := "مراحل: " ++ String.intercalate "، " SCHEDULE.skincare_night }] ++
  [{ atype := ActivityType.LEISURE.value, name := "🎮 تفریح / وقت آزاد",
     time := "20:00", duration := "1+ ساعت",
     descr := "زمان استراحت و فعالیت‌های مورد علاقه" }] ++
  (if d.val ∈ SCHEDULE.school.days then
    [{ atype := ActivityType.STUDY.value, name := "📚 مطالعه و تکالیف",
       time := "17:00", duration := "2 ساعت",
       descr := "مرور درس‌ها و انجام تکالیف" }]
   else [])

/-- Stable insertion of `a` into an already-sorted list: `a` passes every
element strictly below its key and stops before the first element with a
key `≥` its own, so an element inserted later (i.e. occurring *earlier* in
the original list) lands before equal keys — the behavior of Python's
stable `list.sort(key=...)`. -/
def orderedInsertTime (a : PlanItem) : List PlanItem → List PlanItem
  | [] => [a]
  | b :: l =>
    if strLe a.time b.time then a :: b :: l
    else b :: orderedInsertTime a l

/-- Model of `activities.sort(key=lambda x: x["time"])` (line 396): a stable
sort by the `time` string key. -/
def sortByTime : List PlanItem → List PlanItem
  | [] => []
  | a :: l => orderedInsertTime a (sortByTime l)

/-- One row of the `daily_activities` table (schema at `main.py` lines
113-126).  `date` is a day index in the anchor timezone; `completion_time`
is a timestamp (`NULL` ↦ `none`).  The synthetic `created_at` column plays
no role in any operation and is omitted. -/
structure DbRow where
  id : Nat
  user_id : Nat
  date : Nat
  activity_type : String
  activity_name : String
  scheduled_time : String
  completed : Bool
  completion_time : Option Nat
  notes : String
deriving DecidableEq

/-- One row of the `weekly_progress` table as written by
`update_weekly_progress` (lines 281-286).  Its only constraint is the
autoincrement primary key, which the INSERT never supplies, so
`INSERT OR REPLACE` always appends a fresh row; the synthetic id is
omitted from the model (appending preserves row order and count). -/
structure WeeklyRow where
  user_id : Nat
  week_start : Nat
  week_end : Nat
  activity_type : String
  completed_days : Nat
  total_hours : Nat
deriving DecidableEq

/-- The SQLite database state: the two tables the core operations touch,
plus the autoincrement counter for `daily_activities.id`. -/
structure DB where
  nextId : Nat
  daily : List DbRow
  weekly : List WeeklyRow
deriving DecidableEq

/-- `DatabaseManager.log_activity` (lines 172-190): INSERT a fresh row for
`today`, return the assigned rowid. -/
def log_activity (db : DB) (user_id : Nat) (today : Nat) (a : PlanItem) : DB × Nat :=
  ({ db with
       nextId := db.nextId + 1,
       daily := db.daily ++
         [{ id := db.nextId, user_id := user_id, date := today,
            activity_type := a.atype, activity_name := a.name,
            scheduled_time := a.time, completed := false,
            completion_time := none, notes := a.descr }] },
   db.nextId)

/-- The insertion loop of `generate_daily_schedule` (lines 399-407): log
each sorted activity, attaching the id the repository assigned. -/
def logAll (db : DB) (u : Nat) (today : Nat) : List PlanItem → DB × List (PlanItem × Nat)
  | [] => (db, [])
  | a :: rest =>
    let r1 := log_activity db u today a
    let r2 := logAll r1.1 u today rest
    (r2.1, (a, r1.2) :: r2.2)

/-- `RoutinePlanner.generate_daily_schedule` (lines 297-409): build the
day's activity list, stable-sort it by the `time` string, persist every
entry, and return the (db, instance list) pair.  The Python code reads the
weekday and date from the clock; here they are the parameters `d` and
`today`. -/
def generate_daily_schedule (db : DB) (u : Nat) (d : Fin 7) (today : Nat) :
    DB × List (PlanItem × Nat) :=
  logAll db u today (sortByTime (plan d))

/-- Monday of the week containing `today`:
`today - timedelta(days=today.weekday())` (line 238). -/
def weekStart (today : Nat) : Nat := today - today % 7

/-- Per-category aggregate produced by `get_weekly_progress`:
`{'completed': ..., 'total': ..., 'percentage': ...}` (lines 257-261). -/
structure ProgressEntry where
  completed : Nat
  total : Nat
  percentage : ℚ
deriving DecidableEq

/-- Keep the first occurrence of every element, dropping later duplicates:
the order in which `GROUP BY activity_type` groups appear. -/
def dedupFirst (l : List String) : List String :=
  l.foldl (fun acc a => if a ∈ acc then acc else acc ++ [a]) []

/-- `DatabaseManager.get_weekly_progress` (lines 231-264): restrict to the
user's rows whose date lies in the Monday-anchored week containing `today`,
group by `activity_type`, and compute `SUM(completed)` (the count of
completed rows, since `completed` is stored as 0/1), `COUNT(*)`, and the
guarded percentage. -/
def get_weekly_progress (db : DB) (u : Nat) (today : Nat) :
    List (String × ProgressEntry) :=
  let ws := weekStart today
  let we := ws + 6
  let rows := db.daily.filter fun r =>
    r.user_id == u && decide (ws ≤ r.date) && decide (r.date ≤ we)
  let types := dedupFirst (rows.map fun r => r.activity_type)
  types.map fun ty =>
    let grp := rows.filter fun r => r.activity_type == ty
    let total := grp.length
    let completed := (grp.filter fun r => r.completed).length
    (ty, { completed := completed, total := total,
           percentage := if 0 < total then (completed : ℚ) / (total : ℚ) * 100 else 0 })

/-- `DatabaseManager.update_weekly_progress` (lines 266-289): recompute the
week's aggregates and write one `weekly_progress` row per category.  The
`INSERT OR REPLACE` never replaces (see `WeeklyRow`), so each call appends
its whole batch. -/
def update_weekly_progress (db : DB) (u : Nat) (today : Nat) : DB :=
  let progress := get_weekly_progress db u today
  { db with
      weekly := db.weekly ++ progress.map fun p =>
        { user_id := u, week_start := weekStart today,
          week_end := weekStart today + 6, activity_type := p.1,
          completed_days := p.2.completed, total_hours := p.2.total } }

/-- The UPDATE of `mark_activity_completed` (lines 199-203) applied to one
row: rows matching both `id` and `user_id` get `completed = 1` and
`completion_time = ct`; all others are untouched. -/
def updRow (aid u ct : Nat) (r : DbRow) : DbRow :=
  if r.id == aid && r.user_id == u then
    { r with completed := true, completion_time := some ct }
  else r

/-- The state effect of `DatabaseManager.mark_activity_completed`
(lines 192-210): run the UPDATE (matching zero rows is not an error in
SQLite), then `update_weekly_progress` for the calling user.  `ct` is the
`datetime.now` timestamp read for `completion_time`; `today` the day index
read inside the weekly recomputation. -/
def markState (db : DB) (aid u ct today : Nat) : DB :=
  update_weekly_progress { db with daily := db.daily.map (updRow aid u ct) } u today

/-- Errors a repository operation could surface to its caller. -/
inductive DbError
  | notFound
deriving DecidableEq

/-- `DatabaseManager.mark_activity_completed` with its error channel made
explicit: the Python body contains no raise and no rowcount check, so every
call — matching a row or not — returns normally. -/
def mark_activity_completed (db : DB) (aid u ct today : Nat) : Except DbError DB :=
  .ok (markState db aid u ct today)

/-- A local time of day, as `datetime.strptime(s, "%H:%M").time()` yields. -/
structure PyTime where
  hour : Nat
  minute : Nat
deriving DecidableEq

/-- Numeric value of a decimal digit character. -/
def digitVal (c : Char) : Nat := c.toNat - 48

/-- `datetime.strptime(s, "%H:%M").time()` on the well-formed `"HH:MM"`
literals the source passes, reading the two-digit hour and minute. -/
def timeOfString (s : String) : PyTime :=
  match s.data with
  | [h1, h2, _, m1, m2] =>
    { hour := digitVal h1 * 10 + digitVal h2,
      minute := digitVal m1 * 10 + digitVal m2 }
  | _ => { hour := 0, minute := 0 }

/-- Exceptions raised while building the reminder jobs. -/
inductive PyErr
  | typeError
deriving DecidableEq

/-- `datetime.time` objects support no arithmetic in Python: the expression
`....time() - timedelta(minutes=30)` at `main.py` line 695 raises
`TypeError: unsupported operand type(s) for -: 'datetime.time' and
'datetime.timedelta'` for every operand pair. -/
def timeSubMinutes (_t : PyTime) (_m : Nat) : Except PyErr PyTime :=
  .error .typeError

/-- One job registered with the `JobQueue`: callback, fire time, recurrence
weekdays, and job name. -/
structure Job where
  callback : String
  time : PyTime
  days : List Nat
  name : String
deriving DecidableEq

/-- `run_daily` without an explicit `days` argument recurs on every
weekday. -/
def allWeekDays : List Nat := [0, 1, 2, 3, 4, 5, 6]

/-- The school reminder jobs registered by the first loop of
`schedule_reminders` (lines 683-689): one `run_daily` job per school day at
06:30. -/
def schoolJobs : List Job :=
  SCHEDULE.school.days.map fun day =>
    { callback := "remind_school", time := timeOfString "06:30",
      days := [day], name := "school_reminder_" ++ toString day }

/-- The taekwondo loop of `schedule_reminders` (lines 692-698): for each
session, compute `time() - timedelta(minutes=30)` — which raises — and
otherwise register a weekly job on the session's day.  An exception aborts
the loop with the jobs registered so far kept. -/
def addTaekwondoJobs : List Job → List (String × TkSession) → List Job × Option PyErr
  | q, [] => (q, none)
  | q, (nm, s) :: rest =>
    match timeSubMinutes (timeOfString s.start_time) 30 with
    | .error e => (q, some e)
    | .ok t =>
      addTaekwondoJobs
        (q ++ [{ callback := "remind_taekwondo", time := t, days := [s.day],
                 name := "taekwondo_" ++ nm ++ "_reminder" }]) rest

/-- `TelegramBot.schedule_reminders` (lines 680-727) as a transformer of the
job-queue state: it cancels nothing and registers the school jobs, the
taekwondo jobs, the three fixed daily reminders, and the weekly report job;
a raised exception propagates, leaving the jobs registered before it. -/
def schedule_reminders (q : List Job) : List Job × Option PyErr :=
  let q1 := q ++ schoolJobs
  match addTaekwondoJobs q1 taekwondoSessions with
  | (q2, some e) => (q2, some e)
  | (q2, none) =>
    (q2 ++
      [{ callback := "remind_coding", time := timeOfString "15:00",
         days := allWeekDays, name := "coding_reminder" },
       { callback := "remind_workout", time := timeOfString "18:00",
         days := allWeekDays, name := "workout_reminder" },
       { callback := "remind_skincare_night", time := timeOfString "21:45",
         days := allWeekDays, name := "skincare_night_reminder" },
       { callback := "send_weekly_report_to_all", time := timeOfString "20:00",
         days := [5], name := "weekly_report" }], none)

/-- Modelled from the spec: the intended reminder fire time
"`session_start - offset`" (§4.4), computed in minute arithmetic on the
time of day — the computation `schedule_reminders` attempts at line 695. -/
def specFireTime (t : PyTime) (offMin : Nat) : PyTime :=
  let total := t.hour * 60 + t.minute - offMin
  { hour := total / 60, minute := total % 60 }

/-- The identity of a `daily_activities` row minus its assigned id: what a
duplicate insertion reproduces. -/
def stripId (r : DbRow) : Nat × Nat × String × String × String × Bool × Option Nat × String :=
  (r.user_id, r.date, r.activity_type, r.activity_name, r.scheduled_time,
   r.completed, r.completion_time, r.notes)

/-- The rows `logAll` appends, starting from autoincrement value `base`. -/
def mkRows (base u today : Nat) : List PlanItem → List DbRow
  | [] => []
  | a :: rest =>
    { id := base, user_id := u, date := today, activity_type := a.atype,
      activity_name := a.name, scheduled_time := a.time, completed := false,
      completion_time := none, notes := a.descr } :: mkRows (base + 1) u today rest

/-- First generated activity dict carrying type `ty`, if any. -/
def findType (l : List PlanItem) (ty : String) : Option PlanItem :=
  l.find? fun x => x.atype == ty

lemma markState_daily (db : DB) (aid u ct today : Nat) :
    (markState db aid u ct today).daily = db.daily.map (updRow aid u ct) := rfl

lemma logAll_items (u today : Nat) :
    ∀ (l : List PlanItem) (db : DB), ((logAll db u today l).2).map Prod.fst = l := by
  intro l
  induction l with
  | nil => intro db; simp [logAll]
  | cons a rest ih => intro db; simp [logAll, ih]

lemma logAll_state (u today : Nat) :
    ∀ (l : List PlanItem) (db : DB),
      (logAll db u today l).1
        = { nextId := db.nextId + l.length,
            daily := db.daily ++ mkRows db.nextId u today l,
            weekly := db.weekly } := by
  intro l
  induction l with
  | nil => intro db; simp [logAll, mkRows]
  | cons a rest ih =>
    intro db
    simp [logAll, log_activity, mkRows, ih, List.append_assoc, Nat.add_assoc,
      Nat.add_comm 1 rest.length]

lemma mkRows_length (u today : Nat) :
    ∀ (l : List PlanItem) (b : Nat), (mkRows b u today l).length = l.length := by
  intro l
  induction l with
  | nil => intro b; rfl
  | cons a rest ih => intro b; simp [mkRows, ih]

lemma mkRows_stripId (u today : Nat) :
    ∀ (l : List PlanItem) (b1 b2 : Nat),
      (mkRows b1 u today l).map stripId = (mkRows b2 u today l).map stripId := by
  intro l
  induction l with
  | nil => intro b1 b2; rfl
  | cons a rest ih => intro b1 b2; simp [mkRows, stripId, ih (b1 + 1) (b2 + 1)]

lemma sortByTime_facts :
    ∀ d : Fin 7,
      List.Pairwise (fun a b : PlanItem => strLe a.time b.time = true) (sortByTime (plan d)) ∧
      ∀ t ∈ (plan d).map (fun x => x.time),
        (sortByTime (plan d)).filter (fun x => x.time == t)
          = (plan d).filter (fun x => x.time == t) := by decide

/-- C1: for every database state, user and date (entering through its
weekday), the instance list `generate_daily_schedule` returns is sorted
non-decreasing by the `scheduled_time` key, and for each occurring time the
instances carrying it appear exactly as in the declaration-order list
`plan` — Python's stable sort keeps equal-keyed entries in template
declaration order. -/
theorem generate_sorted_stable (db : DB) (u : Nat) (d : Fin 7) (today : Nat) :
    List.Pairwise (fun a b => strLe a.1.time b.1.time = true)
      (generate_daily_schedule db u d today).2 ∧
    ∀ t ∈ (plan d).map (fun x => x.time),
      ((generate_daily_schedule db u d today).2.map Prod.fst).filter (fun x => x.time == t)
        = (plan d).filter (fun x => x.time == t) := by
  have hitems : ((generate_daily_schedule db u d today).2).map Prod.fst
      = sortByTime (plan d) := logAll_items u today _ db
  constructor
  · have hp := (sortByTime_facts d).1
    rw [← hitems] at hp
    exact (List.pairwise_map).mp hp
  · intro t ht
    rw [hitems]
    exact (sortByTime_facts d).2 t ht

/-- Closed instance of `generate_sorted_stable` at weekday 2 and time
`"15:00"`, all hypotheses discharged. -/
theorem generate_sorted_stable_witness :
    List.Pairwise (fun a b => strLe a.1.time b.1.time = true)
      (generate_daily_schedule ⟨1, [], []⟩ 7 2 0).2 ∧
    ((generate_daily_schedule ⟨1, [], []⟩ 7 2 0).2.map Prod.fst).filter
        (fun x => x.time == "15:00")
      = (plan 2).filter (fun x => x.time == "15:00") :=
  ⟨(generate_sorted_stable ⟨1, [], []⟩ 7 2 0).1,
   (generate_sorted_stable ⟨1, [], []⟩ 7 2 0).2 "15:00" (by decide)⟩

/-- C8: generating twice for the same user, weekday and date appends two
batches of rows to `daily_activities`: the repository state grows by twice
the (nonempty) plan, the second batch reproducing the first field-for-field
except for the assigned ids — there is no existence check or upsert guard. -/
theorem generate_twice_duplicates (db : DB) (u : Nat) (d : Fin 7) (today : Nat) :
    (generate_daily_schedule
        (generate_daily_schedule db u d today).1 u d today).1.daily
      = db.daily ++ mkRows db.nextId u today (sortByTime (plan d))
          ++ mkRows (db.nextId + (sortByTime (plan d)).length) u today
              (sortByTime (plan d)) ∧
    (mkRows db.nextId u today (sortByTime (plan d))).map stripId
      = (mkRows (db.nextId + (sortByTime (plan d)).length) u today
          (sortByTime (plan d))).map stripId ∧
    0 < (sortByTime (plan d)).length := by
  refine ⟨?_, mkRows_stripId u today _ _ _, ?_⟩
  · rw [generate_daily_schedule, generate_daily_schedule,
      logAll_state u today _ db, logAll_state u today _ _]
  · have h : ∀ d : Fin 7, 0 < (sortByTime (plan d)).length := by decide
    exact h d

lemma map_updRow_eq_self (aid u ct : Nat) :
    ∀ l : List DbRow, (l.all fun r => !(r.id == aid && r.user_id == u)) = true →
      l.map (updRow aid u ct) = l := by
  intro l
  induction l with
  | nil => intro _; rfl
  | cons r rest ih =>
    intro h
    rw [List.all_cons, Bool.and_eq_true] at h
    have hr : (r.id == aid && r.user_id == u) = false := by
      have h1 := h.1
      cases hcase : (r.id == aid && r.user_id == u)
      · rfl
      · rw [hcase] at h1
        simp at h1
    simp [updRow, hr, ih h.2]

/-- A sample activity row: id 1, owned by user 1, not yet completed. -/
def rowC2 : DbRow :=
  { id := 1, user_id := 1, date := 0, activity_type := "مدرسه",
    activity_name := "⏰ مدرسه", scheduled_time := "07:30", completed := false,
    completion_time := none, notes := "" }

/-- A repository holding exactly `rowC2`. -/
def dbC2 : DB := { nextId := 2, daily := [rowC2], weekly := [] }

/-- C2 counterexample: completing instance 1 of user 1 twice — at
timestamps 10 and then 20 — does not reproduce the state of a single call:
the second call overwrites `completion_time` with its own clock reading and
appends a second recomputed weekly-progress batch. -/
theorem mark_twice_not_idempotent_cex :
    markState (markState dbC2 1 1 10 0) 1 1 20 0 ≠ markState dbC2 1 1 10 0 := by
  decide

lemma updRow_absorb (aid u ct1 ct2 : Nat) :
    updRow aid u ct2 ∘ updRow aid u ct1 = updRow aid u ct2 := by
  funext r
  by_cases hb : (r.id == aid && r.user_id == u) = true
  · simp [Function.comp, updRow, hb]
  · simp [Function.comp, updRow, hb]

/-- The `weekly_progress` rows one completion call appends: the aggregates
recomputed from the post-UPDATE activity table (lines 280-286). -/
def markWeeklyBatch (db : DB) (aid u ct today : Nat) : List WeeklyRow :=
  (get_weekly_progress { db with daily := db.daily.map (updRow aid u ct) } u today).map
    fun p =>
      { user_id := u, week_start := weekStart today,
        week_end := weekStart today + 6, activity_type := p.1,
        completed_days := p.2.completed, total_hours := p.2.total }

lemma get_weekly_progress_daily_congr (a b : DB) (u today : Nat)
    (h : a.daily = b.daily) :
    get_weekly_progress a u today = get_weekly_progress b u today := by
  unfold get_weekly_progress
  rw [h]

/-- C2 as amended: the second completion call is not an error (the
operation always returns normally); on `nextId` and the `daily_activities`
table two calls collapse to a single call made at the *second* call's
timestamp — `completed` stays true and `completion_time` is overwritten —
while the `weekly_progress` cache receives exactly one freshly recomputed
batch per call, the second call's batch being precisely the batch a single
second-timestamp call would append.  Full-state idempotence fails only
because of the overwrite and the batch appends. -/
theorem mark_second_call_absorbs (db : DB) (aid u ct1 today1 ct2 today2 : Nat) :
    (markState (markState db aid u ct1 today1) aid u ct2 today2).daily
      = (markState db aid u ct2 today2).daily ∧
    (markState (markState db aid u ct1 today1) aid u ct2 today2).nextId
      = (markState db aid u ct2 today2).nextId ∧
    (markState (markState db aid u ct1 today1) aid u ct2 today2).weekly
      = db.weekly ++ markWeeklyBatch db aid u ct1 today1
          ++ markWeeklyBatch (markState db aid u ct1 today1) aid u ct2 today2 ∧
    markWeeklyBatch (markState db aid u ct1 today1) aid u ct2 today2
      = markWeeklyBatch db aid u ct2 today2 ∧
    mark_activity_completed (markState db aid u ct1 today1) aid u ct2 today2
      = .ok (markState (markState db aid u ct1 today1) aid u ct2 today2) := by
  refine ⟨?_, rfl, rfl, ?_, rfl⟩
  · rw [markState_daily, markState_daily, markState_daily, List.map_map,
      updRow_absorb]
  · unfold markWeeklyBatch
    congr 1
    apply get_weekly_progress_daily_congr
    show (markState db aid u ct1 today1).daily.map (updRow aid u ct2)
      = db.daily.map (updRow aid u ct2)
    rw [markState_daily, List.map_map, updRow_absorb]

/-- A repository where instance 1 belongs to user 1, while user 2 owns a
different, already-completed instance 2. -/
def dbC3 : DB :=
  { nextId := 3,
    daily := [rowC2,
      { id := 2, user_id := 2, date := 0, activity_type := "مطالعه",
        activity_name := "📚 مطالعه و تکالیف", scheduled_time := "17:00",
        completed := true, completion_time := some 4, notes := "" }],
    weekly := [] }

/-- C3 counterexample: completing instance 1 as user 2 (a foreign id — no
row has id 1 with user 2) raises nothing: the call returns normally, leaves
`daily_activities` untouched, and still changes the stored state by
appending user 2's recomputed weekly-progress batch. -/
theorem mark_foreign_no_error_cex :
    (dbC3.daily.all fun r => !(r.id == 1 && r.user_id == 2)) = true ∧
    mark_activity_completed dbC3 1 2 5 0 = .ok (markState dbC3 1 2 5 0) ∧
    (markState dbC3 1 2 5 0).daily = dbC3.daily ∧
    markState dbC3 1 2 5 0 ≠ dbC3 := by
  refine ⟨by decide, rfl, by decide, by decide⟩

/-- C3 as amended: on an id with no matching (id, user) row the completion
call is a *silent* no-op on `daily_activities` — no `NotFound` or any other
error is surfaced, the activity table is unchanged (the weekly-progress
cache is still recomputed and appended for the calling user). -/
theorem mark_foreign_silent_noop (db : DB) (aid u ct today : Nat)
    (h : (db.daily.all fun r => !(r.id == aid && r.user_id == u)) = true) :
    (markState db aid u ct today).daily = db.daily ∧
    mark_activity_completed db aid u ct today = .ok (markState db aid u ct today) := by
  refine ⟨?_, rfl⟩
  rw [markState_daily]
  exact map_updRow_eq_self aid u ct db.daily h

/-- Closed instance of `mark_foreign_silent_noop` on `dbC3`. -/
theorem mark_foreign_silent_noop_witness :
    (markState dbC3 1 2 5 0).daily = dbC3.daily ∧
    mark_activity_completed dbC3 1 2 5 0 = .ok (markState dbC3 1 2 5 0) :=
  mark_foreign_silent_noop dbC3 1 2 5 0 (by decide)

/-- C9: the effect of completion marking on the stored activity instances
is exactly the two-field mutation of the rows matching (id, user): the
table keeps its length, the matched row gets `completed := true` and
`completion_time := ct` with every other field preserved, and every
non-matching row is returned unchanged. -/
theorem mark_frame_effect (db : DB) (aid u ct today : Nat) (i : Nat) (r : DbRow)
    (hr : db.daily[i]? = some r) :
    (markState db aid u ct today).daily.length = db.daily.length ∧
    (markState db aid u ct today).daily[i]?
      = some (if r.id = aid ∧ r.user_id = u then
                { r with completed := true, completion_time := some ct }
              else r) := by
  refine ⟨by rw [markState_daily, List.length_map], ?_⟩
  rw [markState_daily, List.getElem?_map, hr]
  simp only [Option.map_some']
  congr 1
  by_cases hc : r.id = aid ∧ r.user_id = u
  · rw [if_pos hc]
    have hb : (r.id == aid && r.user_id == u) = true := by
      simp [hc.1, hc.2]
    simp [updRow, hb]
  · rw [if_neg hc]
    have hb : ¬((r.id == aid && r.user_id == u) = true) := by
      simp only [Bool.and_eq_true, beq_iff_eq]
      exact fun hh => hc hh
    simp [updRow, hb]

/-- Closed instance of `mark_frame_effect` on `dbC2`, row 0. -/
theorem mark_frame_effect_witness :
    (markState dbC2 1 1 9 0).daily.length = dbC2.daily.length ∧
    (markState dbC2 1 1 9 0).daily[0]?
      = some (if rowC2.id = 1 ∧ rowC2.user_id = 1 then
                { rowC2 with completed := true, completion_time := some 9 }
              else rowC2) :=
  mark_frame_effect dbC2 1 1 9 0 0 rowC2 (by decide)

/-- A job present in the queue before `schedule_reminders` runs. -/
def preJob : Job :=
  { callback := "remind_school", time := { hour := 6, minute := 30 },
    days := [0], name := "pre_existing" }

/-- C4 counterexample: the scheduler's only registration operation,
`schedule_reminders`, cancels nothing and schedules jobs unconditionally —
run against an empty job set it leaves jobs scheduled (and aborts with a
`TypeError`), and a pre-existing job survives the call. -/
theorem schedule_reminders_not_reconcile_cex :
    (schedule_reminders []).1 ≠ [] ∧
    preJob ∈ (schedule_reminders [preJob]).1 ∧
    (schedule_reminders []).2 = some PyErr.typeError := by decide

/-- C4 as amended: `schedule_reminders` takes no user list and has no
cancellation step; from any starting job set it appends the five school
reminder jobs and then aborts with a `TypeError` while computing the first
taekwondo fire time, leaving the prior jobs plus those five scheduled. -/
theorem schedule_reminders_appends_school_then_aborts (q : List Job) :
    schedule_reminders q = (q ++ schoolJobs, some PyErr.typeError) := by
  rfl

/-- C5: for the martial-arts session on weekday 4 starting `"09:30"`, the
fire-time computation the code attempts — `time() - timedelta(minutes=30)`
at line 695 — raises `TypeError` (Python `datetime.time` supports no
arithmetic) instead of producing the intended `09:00`; the spec-modelled
subtraction `specFireTime` does yield 09:00. -/
theorem taekwondo_fire_time_type_error :
    SCHEDULE.taekwondo_form.day = 4 ∧
    SCHEDULE.taekwondo_form.start_time = "09:30" ∧
    timeSubMinutes (timeOfString SCHEDULE.taekwondo_form.start_time) 30
      = .error PyErr.typeError ∧
    specFireTime (timeOfString SCHEDULE.taekwondo_form.start_time) 30
      = { hour := 9, minute := 0 } :=
  ⟨by decide, by decide, rfl, by decide⟩

/-- C10: evaluating the `SCHEDULE` literal is not total: the sparring
entry's `TaekwondoType.SPARING` attribute reference resolves to no member
(the defined member is `SPARRING`), so the module-level evaluation fails
with an AttributeError. -/
theorem schedule_literal_attribute_error :
    taekwondoTypeMember "SPARING" = none ∧
    taekwondoTypeMember "SPARRING" = some TaekwondoType.SPARRING ∧
    SCHEDULE_opt = none := by decide

/-- C6 counterexample: weekdays 0 and 2 are both school days, yet the
HomeWorkout instance is generated at `"16:00"` on weekday 0 and `"18:00"`
on weekday 2 — its time is not a function of school-day membership. -/
theorem workout_not_school_day_cex :
    (0 : Nat) ∈ SCHEDULE.school.days ∧ (2 : Nat) ∈ SCHEDULE.school.days ∧
    (findType (sortByTime (plan 0)) ActivityType.HOME_WORKOUT.value).map
        (fun x => x.time) = some "16:00" ∧
    (findType (sortByTime (plan 2)) ActivityType.HOME_WORKOUT.value).map
        (fun x => x.time) = some "18:00" := by decide

/-- C6 as amended: Coding selects `"15:00"` on school days (weekdays 0-4)
and `"10:00"` otherwise; HomeWorkout selects `"18:00"` on weekdays
{2, 4, 5} and `"16:00"` otherwise (its rule is that fixed day set, not
school-day membership).  On weekday 1 `generate` returns school@07:30
before coding@15:00, and on weekday 5 coding is at 10:00. -/
theorem coding_workout_time_selection (db : DB) (u : Nat) (today : Nat) :
    (∀ d : Fin 7,
      (findType ((generate_daily_schedule db u d today).2.map Prod.fst)
          ActivityType.CODING.value).map (fun x => x.time)
        = some (if d.val ∈ SCHEDULE.school.days then "15:00" else "10:00") ∧
      (findType ((generate_daily_schedule db u d today).2.map Prod.fst)
          ActivityType.HOME_WORKOUT.value).map (fun x => x.time)
        = some (if d.val ∈ [2, 4, 5] then "18:00" else "16:00")) ∧
    ((generate_daily_schedule db u 1 today).2.map Prod.fst).findIdx
        (fun x => x.atype == ActivityType.SCHOOL.value)
      < ((generate_daily_schedule db u 1 today).2.map Prod.fst).findIdx
        (fun x => x.atype == ActivityType.CODING.value) ∧
    (findType ((generate_daily_schedule db u 1 today).2.map Prod.fst)
        ActivityType.SCHOOL.value).map (fun x => x.time) = some "07:30" ∧
    (findType ((generate_daily_schedule db u 1 today).2.map Prod.fst)
        ActivityType.CODING.value).map (fun x => x.time) = some "15:00" ∧
    (findType ((generate_daily_schedule db u 5 today).2.map Prod.fst)
        ActivityType.CODING.value).map (fun x => x.time) = some "10:00" := by
  have hi : ∀ d : Fin 7, ((generate_daily_schedule db u d today).2).map Prod.fst
      = sortByTime (plan d) := fun d => logAll_items u today _ db
  simp only [hi]
  decide

lemma pct_bounds (c t : Nat) (hct : c ≤ t) :
    0 ≤ (if 0 < t then (c : ℚ) / (t : ℚ) * 100 else 0) ∧
    (if 0 < t then (c : ℚ) / (t : ℚ) * 100 else 0) ≤ 100 := by
  by_cases ht : 0 < t
  · rw [if_pos ht]
    have ht' : (0 : ℚ) < (t : ℚ) := by exact_mod_cast ht
    have hc' : (c : ℚ) ≤ (t : ℚ) := by exact_mod_cast hct
    constructor
    · exact mul_nonneg (div_nonneg (Nat.cast_nonneg c) (Nat.cast_nonneg t))
        (by norm_num)
    · have h1 : (c : ℚ) / (t : ℚ) ≤ 1 := (div_le_one ht').mpr hc'
      calc (c : ℚ) / (t : ℚ) * 100 ≤ 1 * 100 :=
            mul_le_mul_of_nonneg_right h1 (by norm_num)
        _ = 100 := by norm_num
  · rw [if_neg ht]
    norm_num

/-- C7: every entry of the computed weekly progress satisfies
`completed_count ≤ total_count`, carries exactly the guarded percentage
`completed/total*100` (0 when `total = 0`), and its percentage lies in
[0, 100]. -/
theorem weekly_progress_percentage_invariant (db : DB) (u today : Nat)
    (ty : String) (e : ProgressEntry)
    (h : (ty, e) ∈ get_weekly_progress db u today) :
    e.completed ≤ e.total ∧
    e.percentage
      = (if 0 < e.total then (e.completed : ℚ) / (e.total : ℚ) * 100 else 0) ∧
    0 ≤ e.percentage ∧ e.percentage ≤ 100 := by
  rw [get_weekly_progress] at h
  simp only [List.mem_map] at h
  obtain ⟨a, _, heq⟩ := h
  rw [Prod.mk.injEq] at heq
  obtain ⟨hty, he⟩ := heq
  subst hty
  subst he
  refine ⟨List.length_filter_le _ _, rfl,
    (pct_bounds _ _ (List.length_filter_le _ _)).1,
    (pct_bounds _ _ (List.length_filter_le _ _)).2⟩

/-- A completed sample row for the weekly-progress witness. -/
def rowW : DbRow :=
  { id := 1, user_id := 1, date := 0, activity_type := "مدرسه",
    activity_name := "⏰ مدرسه", scheduled_time := "07:30", completed := true,
    completion_time := some 3, notes := "" }

/-- A repository holding exactly `rowW`. -/
def dbW : DB := { nextId := 2, daily := [rowW], weekly := [] }

/-- The weekly-progress entry `dbW` produces for its single category
(the percentage expression is kept unevaluated so the entry is
definitionally the one `get_weekly_progress` computes; it equals 100). -/
def pwE : ProgressEntry :=
  { completed := 1, total := 1,
    percentage := if 0 < (1 : Nat) then ((1 : Nat) : ℚ) / ((1 : Nat) : ℚ) * 100 else 0 }

/-- Closed instance of `weekly_progress_percentage_invariant` on `dbW`. -/
theorem weekly_progress_percentage_invariant_witness :
    pwE.completed ≤ pwE.total ∧
    pwE.percentage
      = (if 0 < pwE.total then (pwE.completed : ℚ) / (pwE.total : ℚ) * 100 else 0) ∧
    0 ≤ pwE.percentage ∧ pwE.percentage ≤ 100 :=
  weekly_progress_percentage_invariant dbW 1 0 "مدرسه" pwE
    (List.mem_singleton_self ("مدرسه", pwE))
